import Mathlib

/-!
Shallow embedding of the PSQL_Stats tool (src/psql_stats/src/main.rs and
src/psql_stats/src/psql_stats/mod.rs) together with proofs about its
connection/session lifecycle and its JSON record store.

Modelling conventions:
  - postgres library handles (postgres::Client) and result rows are opaque to
    this program, so they are modelled as abstract wrapper structures;
  - the side effects of the postgres library (Client::connect, query,
    query_one) are modelled by an explicit environment record DbEnv passed to
    each embedded function;
  - serde_json Values are modelled by the inductive JValue; serde_json keeps
    object keys in a sorted map, so objects built by the json macro are
    written with their keys in sorted order and key insertion is modelled by
    insertSorted; serde_json numbers are modelled as integers, which is
    enough here because every record this program stores is string-valued;
  - the store file ./db_connections.json is modelled by StoreFile: it can be
    unopenable (File::open fails), unreadable (it opens but read_to_string or
    the JSON parse fails, which the Rust code turns into a process abort via
    unwrap), or a parsed document;
  - Rust panics (unwrap, expect on a failing value) are modelled by the
    RResult.panic outcome; a panic aborts the process, so the program state
    paired with a panic outcome is unobservable and is returned unchanged;
  - console output that the claims mention (warnings, reported errors) is
    modelled as a list of emitted message strings.
-/

namespace PsqlStats

/-- Opaque model of a live postgres::Client handle. -/
structure Client where
  id : Nat
deriving DecidableEq, Repr

/-- Opaque model of one postgres result row (consumed for display only). -/
structure Row where
  id : Nat
deriving DecidableEq, Repr

/-- The error enum PGError of src/psql_stats/src/psql_stats/mod.rs. -/
inductive PGError where
  | QueryError
  | ClientEmpty
  | JSONOpenFileError
  | DuplicateConnection
  | MatchNotFound
deriving DecidableEq, Repr

/-- Outcome of a fallible Rust call: normal return, a PGError, or a process
abort through unwrap or expect. -/
inductive RResult (α : Type) where
  | ok (a : α)
  | err (e : PGError)
  | panic
deriving DecidableEq, Repr

/-- The Connection struct of mod.rs: an optional live client plus the
parameters used to establish it. -/
structure Connection where
  client : Option Client
  host : String
  dbname : String
  user : String
  port : String
  password : String
deriving DecidableEq, Repr

/-- Environment modelling the postgres library calls this program issues:
Client::connect on a connection string, Client::query_one and Client::query
on a query string. An error value carries the library error text. -/
structure DbEnv where
  connect : String → Except String Client
  queryOne : String → Except String Row
  query : String → Except String (List Row)

/-- serde_json::Value, restricted to the shapes this program manipulates. -/
inductive JValue where
  | null
  | bool (b : Bool)
  | num (n : Int)
  | str (s : String)
  | arr (xs : List JValue)
  | obj (fields : List (String × JValue))

/-- Indexing a Value with a string key: field lookup on objects, Null
otherwise (serde_json Index for str). -/
def JValue.getKey (v : JValue) (k : String) : JValue :=
  match v with
  | .obj fs =>
    match fs.lookup k with
    | some w => w
    | none => .null
  | _ => .null

/-- Value::as_str: Some for JSON strings, None otherwise. -/
def JValue.asStr : JValue → Option String
  | .str s => some s
  | _ => none

/-- Lowercase hexadecimal digit, as used by the serde_json string escaper. -/
def hexDigit (n : Nat) : Char :=
  if n < 10 then Char.ofNat (48 + n) else Char.ofNat (87 + n)

/-- How serde_json escapes one character inside a JSON string. -/
def escapeChar (c : Char) : List Char :=
  if c = '\x22' then ['\\', '\x22']
  else if c = '\\' then ['\\', '\\']
  else if c = '\x08' then ['\\', 'b']
  else if c = '\x09' then ['\\', 't']
  else if c = '\x0a' then ['\\', 'n']
  else if c = '\x0c' then ['\\', 'f']
  else if c = '\x0d' then ['\\', 'r']
  else if c.toNat < 0x20 then
    ['\\', 'u', '0', '0', hexDigit (c.toNat / 16), hexDigit (c.toNat % 16)]
  else [c]

/-- serde_json serialization of a JSON string: quoted and escaped. -/
def jsonEncodeString (s : String) : String :=
  ⟨'\x22' :: (s.data.map escapeChar).flatten ++ ['\x22']⟩

mutual

/-- Compact serde_json serialization (Value::to_string / serde_json::to_string). -/
def JValue.serialize : JValue → String
  | .null => "null"
  | .bool b => if b then "true" else "false"
  | .num n => toString n
  | .str s => jsonEncodeString s
  | .arr xs => "[" ++ serializeElems xs ++ "]"
  | .obj fs => "\x7b" ++ serializeFields fs ++ "\x7d"

/-- Comma-separated serialization of array elements. -/
def serializeElems : List JValue → String
  | [] => ""
  | [v] => v.serialize
  | v :: w :: rest => v.serialize ++ "," ++ serializeElems (w :: rest)

/-- Comma-separated serialization of object fields. -/
def serializeFields : List (String × JValue) → String
  | [] => ""
  | [(k, v)] => jsonEncodeString k ++ ":" ++ v.serialize
  | (k, v) :: f :: rest =>
    jsonEncodeString k ++ ":" ++ v.serialize ++ "," ++ serializeFields (f :: rest)

end

/-- Key insertion into a serde_json object map (BTreeMap keeps keys sorted;
an existing key has its value replaced in place). -/
def insertSorted (fields : List (String × JValue)) (k : String) (v : JValue) :
    List (String × JValue) :=
  match fields with
  | [] => [(k, v)]
  | (k0, v0) :: rest =>
    match compare k k0 with
    | .lt => (k, v) :: (k0, v0) :: rest
    | .eq => (k, v) :: rest
    | .gt => (k0, v0) :: insertSorted rest k v

/-- State of the store file ./db_connections.json as seen by one call. -/
inductive StoreFile where
  | unopenable
  | unreadable
  | parsed (v : JValue)

/-- Text contents of the store file, when it holds a well-formed document. -/
def StoreFile.contents : StoreFile → Option String
  | .parsed v => some v.serialize
  | _ => none

/-- Number of profiles in the store file, when the document has the expected
shape. -/
def profileCount : StoreFile → Option Nat
  | .parsed v =>
    match v.getKey "connections" with
    | .arr xs => some xs.length
    | _ => none
  | _ => none

/-- The connection names of the stored profiles, as collected by
write_to_json (as_str().unwrap() on each entry: None when some entry lacks a
string connection_name, which the Rust code turns into a panic). -/
def collectNames (conns : List JValue) : Option (List String) :=
  conns.mapM (fun conn => (conn.getKey "connection_name").asStr)

/-- The record that write_to_json appends for the current session: the json
macro object with keys in serde_json sorted-map order. No password field. -/
def savedRecord (c : Connection) (connection_name : String) : JValue :=
  .obj [("connection_name", .str connection_name), ("dbname", .str c.dbname),
        ("host", .str c.host), ("port", .str c.port), ("user", .str c.user)]

/-- Keys of a JSON object record. -/
def recordKeys : JValue → List String
  | .obj fs => fs.map (fun f => f.1)
  | _ => []

/-- The connection string built by Connection::connect (mod.rs lines
140-152): every field, the stored port string included, is interpolated
verbatim. -/
def connString (c : Connection) : String :=
  "user=" ++ c.user ++ " host=" ++ c.host ++ " dbname=" ++ c.dbname ++
    " password=" ++ c.password ++ " port=" ++ c.port

/-- Connection::connect: attempt Client::connect on the connection string; on
failure print the error and leave the client None, on success store the
client. Returns the updated Connection and the emitted messages. -/
def Connection.connect (env : DbEnv) (c : Connection) : Connection × List String :=
  match env.connect (connString c) with
  | .ok cl => ({ c with client := some cl }, [])
  | .error e => ({ c with client := none }, ["Error: " ++ e])

/-- Rust str::parse::<u16>: optional leading plus sign, then one or more
decimal digits, value at most 65535. -/
def rustParseU16 (s : String) : Option Nat :=
  let ds := match s.data with
    | '+' :: rest => rest
    | cs => cs
  match ds with
  | [] => none
  | _ =>
    ds.foldlM (fun acc c =>
      if c.isDigit then
        let v := acc * 10 + (c.toNat - 48)
        if v ≤ 65535 then some v else none
      else none) 0

/-- The port number Connection::new uses, with the messages it prints: 5432
when the stored port string is empty, the parsed value when it parses as u16,
and 5432 with a warning otherwise (mod.rs lines 89-107). -/
def portOrDefault (port : String) : Nat × List String :=
  if port = "" then (5432, [])
  else
    match rustParseU16 port with
    | some p => (p, [])
    | none => (5432, ["Port: " ++ port, "Could not parse port. Using default 5432"])

/-- The connection string built by Connection::new (mod.rs lines 110-113),
which uses the defaulted port number. -/
def newConnTarget (host dbname uname port pword : String) : String :=
  "host=" ++ host ++ " dbname=" ++ dbname ++ " port=" ++
    toString (portOrDefault port).1 ++ " user=" ++ uname ++ " password=" ++ pword

/-- Connection::new: default the port, build the connection string, attempt
Client::connect, and store the outcome together with the given parameters
(the original port string is kept). Returns the Connection and the emitted
messages. -/
def Connection.new (env : DbEnv) (host dbname uname port pword : String) :
    Connection × List String :=
  let warns := (portOrDefault port).2
  match env.connect (newConnTarget host dbname uname port pword) with
  | .ok cl => (⟨some cl, host, dbname, uname, port, pword⟩, warns ++ ["Successfully connected"])
  | .error e => (⟨none, host, dbname, uname, port, pword⟩, warns ++ ["Connection Error: " ++ e])

/-- The fixed query run by Connection::version. -/
def version_query : String := "SELECT version()"

/-- Connection::version: with no client, fail with ClientEmpty before any
query; otherwise run query_one on the version query. The second component
lists the queries attempted during the call. -/
def Connection.version (env : DbEnv) (c : Connection) : RResult Row × List String :=
  match c.client with
  | some _ =>
    match env.queryOne version_query with
    | .ok r => (.ok r, [version_query])
    | .error _ => (.err .QueryError, [version_query])
  | none => (.err .ClientEmpty, [])

/-- The fixed raw-string query run by Connection::get_uptime. -/
def uptime_query : String :=
  "\n      SELECT date_trunc(\x27second\x27, current_timestamp - pg_postmaster_start_time()) as uptime;\n      "

/-- Connection::get_uptime: with no client, fail with ClientEmpty before any
query; otherwise run the uptime query. The second component lists the queries
attempted during the call. -/
def Connection.get_uptime (env : DbEnv) (c : Connection) : RResult (List Row) × List String :=
  match c.client with
  | some _ =>
    match env.query uptime_query with
    | .ok rs => (.ok rs, [uptime_query])
    | .error _ => (.err .QueryError, [uptime_query])
  | none => (.err .ClientEmpty, [])

/-- Connection::write_to_json (mod.rs lines 259-312). Open the store file
(JSONOpenFileError when it cannot be opened; a file that opens but does not
read or parse is an unwrap panic). The parsed document must be an object
(as_object_mut unwrap) whose connections entry, inserted as an empty array
when absent, must be an array (as_array_mut unwrap). Collect all stored
connection names (panic when an entry lacks a string connection_name); on a
duplicate name return DuplicateConnection before touching the file; otherwise
append the record and rewrite the whole document. The second component is the
resulting store file state. -/
def write_to_json (file : StoreFile) (c : Connection) (connection_name : String) :
    RResult Bool × StoreFile :=
  match file with
  | .unopenable => (.err .JSONOpenFileError, .unopenable)
  | .unreadable => (.panic, .unreadable)
  | .parsed v =>
    match v with
    | .obj fields =>
      let conns_val := match fields.lookup "connections" with
        | some cv => cv
        | none => .arr []
      match conns_val with
      | .arr arr =>
        match collectNames arr with
        | none => (.panic, .parsed (.obj fields))
        | some names =>
          if names.contains connection_name then
            (.err .DuplicateConnection, .parsed (.obj fields))
          else
            (.ok true,
             .parsed (.obj (insertSorted fields "connections"
               (.arr (arr ++ [savedRecord c connection_name])))))
      | _ => (.panic, .parsed (.obj fields))
    | _ => (.panic, .parsed v)

/-- The scan of read_from_json over the connections array (mod.rs lines
325-346). Each entry must have a string connection_name (as_str unwrap). On
the first exact name match, the receiver is mutated: dbname, user and host
are all assigned the serialized dbname value (Value::to_string, quotes
included), port is assigned the raw dbname string (as_str unwrap), and
password is assigned the supplied password; then a new Connection is built
through Connection::new from the serialized host, dbname and user values and
the raw port string. With no match the scan falls through to MatchNotFound.
The second component is the receiver state after the call. -/
def readLoop (env : DbEnv) (self : Connection) (connection_name password : String) :
    List JValue → RResult Connection × Connection
  | [] => (.err .MatchNotFound, self)
  | conn :: rest =>
    match (conn.getKey "connection_name").asStr with
    | none => (.panic, self)
    | some nm =>
      if nm = connection_name then
        match (conn.getKey "dbname").asStr with
        | none => (.panic, self)
        | some dbraw =>
          let self2 : Connection :=
            { self with
              dbname := (conn.getKey "dbname").serialize
              user := (conn.getKey "dbname").serialize
              port := dbraw
              host := (conn.getKey "dbname").serialize
              password := password }
          match (conn.getKey "port").asStr with
          | none => (.panic, self2)
          | some portraw =>
            (.ok (Connection.new env ((conn.getKey "host").serialize)
              ((conn.getKey "dbname").serialize) ((conn.getKey "user").serialize)
              portraw password).1, self2)
      else readLoop env self connection_name password rest

/-- Connection::read_from_json (mod.rs lines 317-348): read and parse the
store file (any open, read or parse failure is an unwrap panic), require a
connections array (as_array unwrap), then scan it for the name. -/
def read_from_json (file : StoreFile) (env : DbEnv) (self : Connection)
    (connection_name password : String) : RResult Connection × Connection :=
  match file with
  | .unopenable => (.panic, self)
  | .unreadable => (.panic, self)
  | .parsed v =>
    match v.getKey "connections" with
    | .arr conns => readLoop env self connection_name password conns
    | _ => (.panic, self)

/-- Rust char::is_whitespace: the Unicode White_Space code points. -/
def isRustWhitespace (c : Char) : Bool :=
  let n := c.toNat
  (9 ≤ n && n ≤ 13) || n = 32 || n = 133 || n = 160 || n = 0x1680 ||
    (0x2000 ≤ n && n ≤ 0x200a) || n = 0x2028 || n = 0x2029 || n = 0x202f ||
    n = 0x205f || n = 0x3000

/-- Rust str::trim on a character list: drop whitespace from both ends. -/
def trimCharList (cs : List Char) : List Char :=
  ((cs.dropWhile isRustWhitespace).reverse.dropWhile isRustWhitespace).reverse

/-- Rust str::trim. -/
def rustTrim (s : String) : String :=
  ⟨trimCharList s.data⟩

/-- The buffer io::stdin().read_line fills for an entered line: the line
content followed by its terminator. -/
def readLineBuffer (entered : String) : String :=
  entered ++ "\n"

/-- REPL menu option 1 (main.rs lines 147-166): read a connection name line,
trim it, and save the current connection under the trimmed name. -/
def replSaveStep (file : StoreFile) (c : Connection) (enteredName : String) :
    RResult Bool × StoreFile :=
  write_to_json file c (rustTrim (readLineBuffer enteredName))

/-- REPL menu option 8 (main.rs lines 230-262): read a connection name line
and a password line and pass both raw buffers, line terminators included and
untrimmed, to read_from_json. -/
def replLoadStep (file : StoreFile) (env : DbEnv) (c : Connection)
    (enteredName enteredPw : String) : RResult Connection × Connection :=
  read_from_json file env c (readLineBuffer enteredName) (readLineBuffer enteredPw)

/-- Command line options as supplied by the user (None for an omitted
option). The port option is an i16 at the command line. -/
structure ArgsInput where
  host : Option String
  user : Option String
  dbname : Option String
  port : Option Int
  password : Option String
  load : Option String

/-- The parsed Args struct of mod.rs. -/
structure Args where
  host : Option String
  user : Option String
  dbname : Option String
  port : Option Int
  password : Option String
  load : Option String

/-- clap parsing of Args: the user field carries
default_value = Some("postgres") (mod.rs line 52), so after parsing it is
always present; every other field is passed through. -/
def parseArgs (i : ArgsInput) : Args :=
  { host := i.host, user := some (i.user.getD "postgres"), dbname := i.dbname,
    port := i.port, password := i.password, load := i.load }

/-- Outcome of the startup phase of main (main.rs lines 36-108): a fatal
process exit, an abort through a panic, or a Connection entering the REPL. -/
inductive StartupResult where
  | exit (code : Nat)
  | abort
  | session (c : Connection)
deriving DecidableEq, Repr

/-- The user parameter of the session a startup produced, when it produced
one. -/
def userOf : StartupResult → Option String
  | .session c => some c.user
  | _ => none

/-- The default-initialized Connection main starts from (main.rs lines 41-48). -/
def emptyConn : Connection :=
  ⟨none, "", "", "", "", ""⟩

/-- The startup phase of main (main.rs lines 36-108). With a load option and
a password option, load the named profile (exit 1 when the load returns an
error, abort when it panics), overwrite its password with the supplied one,
and connect; with a load option but no password the default connection is
connected as is. Without a load option, fill host, dbname, user, port and
password from the parsed arguments with their documented defaults — exiting 1
when the parsed user is absent — and connect. -/
def startup (file : StoreFile) (env : DbEnv) (i : ArgsInput) : StartupResult :=
  let args := parseArgs i
  match args.load with
  | some loadName =>
    match args.password with
    | some pw =>
      match read_from_json file env emptyConn loadName pw with
      | (.ok c, _) => .session (Connection.connect env { c with password := pw }).1
      | (.err _, _) => .exit 1
      | (.panic, _) => .abort
    | none => .session (Connection.connect env emptyConn).1
  | none =>
    let host := args.host.getD "localhost"
    let dbname := match args.dbname with
      | some s => s
      | none => match args.user with
        | some u => u
        | none => "postgres"
    match args.user with
    | some user =>
      let port := match args.port with
        | some p => toString p
        | none => "5432"
      let password := args.password.getD ""
      .session (Connection.connect env
        { emptyConn with host := host, dbname := dbname, user := user,
                         port := port, password := password }).1
    | none => .exit 1

/-! Concrete fixtures used by witnesses and counterexamples. -/

/-- Environment in which every library call fails. -/
def envFail : DbEnv :=
  ⟨fun _ => .error "db down", fun _ => .error "db down", fun _ => .error "db down"⟩

/-- Environment in which every library call succeeds. -/
def envOk : DbEnv :=
  ⟨fun _ => .ok ⟨0⟩, fun _ => .ok ⟨0⟩, fun _ => .ok [⟨0⟩]⟩

/-- A session holding the parameters of the spec example profile. -/
def connProd : Connection :=
  ⟨none, "db1", "app", "alice", "5432", "secret"⟩

/-- The spec example profile as a stored JSON record. -/
def prodProfile : JValue :=
  .obj [("connection_name", .str "prod"), ("dbname", .str "app"),
        ("host", .str "db1"), ("port", .str "5432"), ("user", .str "alice")]

/-- A store file holding an empty connections array. -/
def emptyStore : StoreFile :=
  .parsed (.obj [("connections", .arr [])])

/-- A store file holding exactly the spec example profile. -/
def prodStore : StoreFile :=
  .parsed (.obj [("connections", .arr [prodProfile])])

/-- A startup parameter set supplying no option at all. -/
def argsNone : ArgsInput :=
  ⟨none, none, none, none, none, none⟩

/-- A session whose port parameter is the empty string. -/
def connEmptyPort : Connection :=
  ⟨none, "h", "d", "u", "", "p"⟩

/-- A session with password "a". -/
def connPwA : Connection :=
  ⟨none, "db1", "app", "alice", "5432", "a"⟩

/-- A session differing from connPwA only in its password. -/
def connPwB : Connection :=
  ⟨none, "db1", "app", "alice", "5432", "b"⟩

/-! Helper lemmas shared by the claim theorems. -/

/-- A trimmed character list never ends in a whitespace character. -/
theorem trimCharList_last_not_ws (cs ds : List Char) (c : Char)
    (h : trimCharList cs = ds ++ [c]) : isRustWhitespace c = false := by
  have h2 : (cs.dropWhile isRustWhitespace).reverse.dropWhile isRustWhitespace =
      c :: ds.reverse := by
    have h3 := congrArg List.reverse h
    simpa [trimCharList] using h3
  have hne : (cs.dropWhile isRustWhitespace).reverse.dropWhile isRustWhitespace ≠ [] := by
    simp [h2]
  have h4 := List.head_dropWhile_not isRustWhitespace
    (cs.dropWhile isRustWhitespace).reverse (by simpa using hne)
  rwa [show ((cs.dropWhile isRustWhitespace).reverse.dropWhile isRustWhitespace).head
      (by simpa using hne) = c by simp [h2]] at h4

/-- A trimmed name can never equal a raw input line, because the raw line
ends with its newline terminator and a trimmed string cannot. -/
theorem rustTrim_ne_newline_append (e l : String) : rustTrim e ≠ l ++ "\n" := by
  intro h
  have hd : trimCharList e.data = l.data ++ ['\n'] := congrArg String.data h
  have h2 := trimCharList_last_not_ws e.data l.data '\n' hd
  exact absurd h2 (by decide)

/-- When every entry of the connections array carries a string
connection_name different from the target, the scan of read_from_json falls
through to MatchNotFound and leaves the receiver unchanged. -/
theorem readLoop_no_match (env : DbEnv) (self : Connection) (target pw : String)
    (conns : List JValue)
    (h : ∀ conn ∈ conns, ∃ nm,
      (JValue.getKey conn "connection_name").asStr = some nm ∧ nm ≠ target) :
    readLoop env self target pw conns = (.err .MatchNotFound, self) := by
  induction conns with
  | nil => rfl
  | cons conn rest ih =>
    obtain ⟨nm, hnm, hne⟩ := h conn (by simp)
    have hrest := ih (fun c hc => h c (by simp [hc]))
    simp [readLoop, hnm, hne, hrest]

/-- Connection::connect only changes the client field. -/
theorem connect_user (env : DbEnv) (c : Connection) :
    ((Connection.connect env c).1).user = c.user := by
  cases henv : env.connect (connString c) <;> simp [Connection.connect, henv]

/-! Claim theorems. -/

/-- C6: for every session whose connection handle is absent, version and
get_uptime fail with ClientEmpty and attempt no query. -/
theorem version_uptime_clientEmpty (env : DbEnv) (c : Connection)
    (h : c.client = none) :
    Connection.version env c = (.err .ClientEmpty, []) ∧
    Connection.get_uptime env c = (.err .ClientEmpty, []) := by
  constructor <;> simp [Connection.version, Connection.get_uptime, h]

/-- C6 witness: the default-initialized connection in a failing environment. -/
theorem version_uptime_clientEmpty_witness :
    Connection.version envFail emptyConn = (.err .ClientEmpty, []) ∧
    Connection.get_uptime envFail emptyConn = (.err .ClientEmpty, []) :=
  version_uptime_clientEmpty envFail emptyConn rfl

/-- C7: when the library connection attempt fails, connect leaves the handle
absent and reports the underlying error; when it succeeds, the handle is
present. The call returns normally in both cases. -/
theorem connect_failure_absent_success_present (env : DbEnv) (c : Connection) :
    (∀ e, env.connect (connString c) = .error e →
      (Connection.connect env c).1.client = none ∧
      (Connection.connect env c).2 = ["Error: " ++ e]) ∧
    (∀ cl, env.connect (connString c) = .ok cl →
      (Connection.connect env c).1.client = some cl) := by
  constructor
  · intro e he
    constructor <;> simp [Connection.connect, he]
  · intro cl hcl
    simp [Connection.connect, hcl]

/-- C7 witness: an unreachable host leaves the handle absent with the error
reported, and a reachable one yields a present handle. -/
theorem connect_failure_absent_success_present_witness :
    ((Connection.connect envFail connProd).1.client = none ∧
      (Connection.connect envFail connProd).2 = ["Error: " ++ "db down"]) ∧
    (Connection.connect envOk connProd).1.client = some ⟨0⟩ :=
  ⟨(connect_failure_absent_success_present envFail connProd).1 "db down" rfl,
   (connect_failure_absent_success_present envOk connProd).2 ⟨0⟩ rfl⟩

/-- C9: looking up a name that matches no stored profile fails with
MatchNotFound and leaves every parameter of the receiving session unchanged. -/
theorem load_absent_name_notFound (v : JValue) (conns : List JValue) (env : DbEnv)
    (self : Connection) (n pw : String)
    (hc : v.getKey "connections" = .arr conns)
    (h : ∀ conn ∈ conns, ∃ nm,
      (JValue.getKey conn "connection_name").asStr = some nm ∧ nm ≠ n) :
    read_from_json (.parsed v) env self n pw = (.err .MatchNotFound, self) := by
  simp [read_from_json, hc]
  exact readLoop_no_match env self n pw conns h

/-- C9 witness: the spec example, loading the name staging from a store that
only holds prod. -/
theorem load_absent_name_notFound_witness :
    read_from_json prodStore envFail emptyConn "staging" "pw" =
      (.err .MatchNotFound, emptyConn) :=
  load_absent_name_notFound (.obj [("connections", .arr [prodProfile])])
    [prodProfile] envFail emptyConn "staging" "pw" rfl
    (by
      intro conn hconn
      simp only [List.mem_singleton] at hconn
      subst hconn
      exact ⟨"prod", rfl, by decide⟩)

/-- C2: when every stored profile name was written by the save command of
the REPL, which trims the entered name, the load command of the REPL passes
the raw input line with its terminator as the lookup name, so the exact
comparison in read_from_json never matches and the load fails with
MatchNotFound. -/
theorem repl_load_untrimmed_never_matches (v : JValue) (conns : List JValue)
    (env : DbEnv) (self : Connection) (enteredName enteredPw : String)
    (hc : v.getKey "connections" = .arr conns)
    (h : ∀ conn ∈ conns, ∃ e,
      (JValue.getKey conn "connection_name").asStr = some (rustTrim e)) :
    replLoadStep (.parsed v) env self enteredName enteredPw =
      (.err .MatchNotFound, self) := by
  have h2 : ∀ conn ∈ conns, ∃ nm,
      (JValue.getKey conn "connection_name").asStr = some nm ∧
      nm ≠ readLineBuffer enteredName := by
    intro conn hconn
    obtain ⟨e, he⟩ := h conn hconn
    exact ⟨rustTrim e, he, rustTrim_ne_newline_append e enteredName⟩
  simp [replLoadStep, read_from_json, hc]
  exact readLoop_no_match env self (readLineBuffer enteredName)
    (readLineBuffer enteredPw) conns h2

/-- C2 witness: a profile saved under the trimmed name prod is not found by
the load command even when the user enters exactly prod. -/
theorem repl_load_untrimmed_never_matches_witness :
    replLoadStep prodStore envFail emptyConn "prod" "pw" =
      (.err .MatchNotFound, emptyConn) :=
  repl_load_untrimmed_never_matches (.obj [("connections", .arr [prodProfile])])
    [prodProfile] envFail emptyConn "prod" "pw" rfl
    (by
      intro conn hconn
      simp only [List.mem_singleton] at hconn
      subst hconn
      exact ⟨"prod", by decide⟩)

/-- C3: saving under a name already present among the stored profiles fails
with DuplicateConnection and leaves the store file, its contents and its
profile count unchanged. -/
theorem save_duplicate_name_fails_unchanged (fields : List (String × JValue))
    (conns : List JValue) (names : List String) (c : Connection) (n : String)
    (hc : fields.lookup "connections" = some (.arr conns))
    (hn : collectNames conns = some names)
    (hmem : names.contains n = true) :
    write_to_json (.parsed (.obj fields)) c n =
      (.err .DuplicateConnection, .parsed (.obj fields)) ∧
    (write_to_json (.parsed (.obj fields)) c n).2.contents =
      (StoreFile.parsed (.obj fields)).contents ∧
    profileCount (write_to_json (.parsed (.obj fields)) c n).2 =
      profileCount (.parsed (.obj fields)) := by
    have hmem2 : n ∈ names := by simpa using hmem
    refine ⟨?_, ?_, ?_⟩ <;> simp [write_to_json, hc, hn, hmem2]

/-- C3 witness: saving prod into a store that already holds prod. -/
theorem save_duplicate_name_fails_unchanged_witness :
    write_to_json prodStore connProd "prod" =
      (.err .DuplicateConnection, prodStore) ∧
    (write_to_json prodStore connProd "prod").2.contents = prodStore.contents ∧
    profileCount (write_to_json prodStore connProd "prod").2 =
      profileCount prodStore :=
  save_duplicate_name_fails_unchanged [("connections", .arr [prodProfile])]
    [prodProfile] ["prod"] connProd "prod" rfl rfl rfl

/-- C4 counterexample: on a store file that opens but does not hold valid
structured data, write_to_json aborts the process through unwrap instead of
failing with the JSONOpenFileError store error. -/
theorem save_unparseable_store_panics :
    (write_to_json .unreadable connProd "prod").1 = .panic ∧
    (write_to_json .unreadable connProd "prod").1 ≠ .err .JSONOpenFileError := by
  constructor
  · rfl
  · decide

/-- C4 amended: write_to_json fails with JSONOpenFileError exactly when the
store file cannot be opened; a store file that opens but cannot be read as
valid structured data makes the call abort the process instead. Neither case
touches the store file. -/
theorem save_store_unavailable_amended (c : Connection) (n : String) :
    write_to_json .unopenable c n = (.err .JSONOpenFileError, .unopenable) ∧
    write_to_json .unreadable c n = (.panic, .unreadable) :=
  ⟨rfl, rfl⟩

/-- C4 amended witness: the amended behaviour at a concrete session and name. -/
theorem save_store_unavailable_amended_witness :
    write_to_json .unopenable connProd "prod" = (.err .JSONOpenFileError, .unopenable) ∧
    write_to_json .unreadable connProd "prod" = (.panic, .unreadable) :=
  save_store_unavailable_amended connProd "prod"

/-- C10: the record write_to_json appends holds exactly the fields
connection_name, dbname, host, port and user, and two sessions that differ
only in their password produce identical write results and identical written
file contents. -/
theorem saved_record_excludes_password (c1 c2 : Connection) (n : String)
    (file : StoreFile)
    (hh : c1.host = c2.host) (hd : c1.dbname = c2.dbname)
    (hu : c1.user = c2.user) (hp : c1.port = c2.port) :
    recordKeys (savedRecord c1 n) =
      ["connection_name", "dbname", "host", "port", "user"] ∧
    write_to_json file c1 n = write_to_json file c2 n ∧
    (write_to_json file c1 n).2.contents = (write_to_json file c2 n).2.contents := by
  have hrec : savedRecord c1 n = savedRecord c2 n := by
    simp [savedRecord, hh, hd, hu, hp]
  have hw : write_to_json file c1 n = write_to_json file c2 n := by
    cases file with
    | unopenable => rfl
    | unreadable => rfl
    | parsed v => simp [write_to_json, hrec]
  exact ⟨rfl, hw, congrArg (fun r => r.2.contents) hw⟩

/-- C10 witness: two sessions that differ only in their password write the
same bytes on a concrete store. -/
theorem saved_record_excludes_password_witness :
    recordKeys (savedRecord connPwA "prod") =
      ["connection_name", "dbname", "host", "port", "user"] ∧
    write_to_json emptyStore connPwA "prod" = write_to_json emptyStore connPwB "prod" ∧
    (write_to_json emptyStore connPwA "prod").2.contents =
      (write_to_json emptyStore connPwB "prod").2.contents :=
  saved_record_excludes_password connPwA connPwB "prod" emptyStore rfl rfl rfl rfl

/-- C1: the save and load pair does not round-trip. Saving the spec example
profile into an empty store yields exactly the store of the example, but
loading prod back returns host, dbname and user as their JSON serializations,
surrounding quotes included, because read_from_json builds the result through
Value::to_string instead of as_str; only port round-trips. -/
theorem save_load_roundtrip_broken :
    write_to_json emptyStore connProd "prod" = (.ok true, prodStore) ∧
    (read_from_json prodStore envFail emptyConn "prod" "secret").1 =
      .ok ⟨none, "\x22db1\x22", "\x22app\x22", "\x22alice\x22", "5432", "secret"⟩ ∧
    ("\x22db1\x22" : String) ≠ "db1" := by
  refine ⟨rfl, by decide, by decide⟩

/-- C5 counterexample: with no username option and no load option the
process does not exit; clap substitutes the default username postgres and
startup proceeds to a session. -/
theorem startup_no_user_does_not_exit :
    startup emptyStore envFail argsNone =
      .session ⟨none, "localhost", "postgres", "postgres", "5432", ""⟩ ∧
    startup emptyStore envFail argsNone ≠ .exit 1 := by
  constructor
  · rfl
  · decide

/-- C5 amended: when no saved profile is loaded, the parsed username is
always present — the supplied one, or the clap default postgres when none was
supplied — so startup never takes the missing-username fatal exit and always
enters a session whose user is the supplied-or-default name. -/
theorem startup_defaults_user_amended (i : ArgsInput) (file : StoreFile)
    (env : DbEnv) (h : i.load = none) :
    startup file env i ≠ .exit 1 ∧
    userOf (startup file env i) = some (i.user.getD "postgres") := by
  unfold startup
  simp only [parseArgs, h]
  constructor
  · simp
  · simp [userOf, connect_user]

/-- C5 amended witness: the all-defaults startup parameter set yields a
session with user postgres. -/
theorem startup_defaults_user_amended_witness :
    startup emptyStore envFail argsNone ≠ .exit 1 ∧
    userOf (startup emptyStore envFail argsNone) = some "postgres" :=
  startup_defaults_user_amended argsNone emptyStore envFail rfl

/-- C8 counterexample: connect on a session whose port parameter is empty
interpolates the empty port into the connection target instead of the
standard default 5432. -/
theorem connect_does_not_default_port :
    connString connEmptyPort = "user=u host=h dbname=d password=p port=" ∧
    connString connEmptyPort ≠ "user=u host=h dbname=d password=p port=5432" := by
  constructor
  · rfl
  · decide

/-- C8 amended: the port defaulting lives in Connection::new, not in
connect. When the stored port string is empty or does not parse as a u16,
the connection target built by Connection::new uses the default port 5432,
and in the unparseable case a warning is emitted; connect itself interpolates
the stored port string verbatim. -/
theorem new_defaults_port_amended (host dbname uname port pword : String)
    (h : port = "" ∨ rustParseU16 port = none) :
    newConnTarget host dbname uname port pword =
      "host=" ++ host ++ " dbname=" ++ dbname ++ " port=" ++ "5432" ++
        " user=" ++ uname ++ " password=" ++ pword ∧
    (port ≠ "" → (portOrDefault port).2 =
      ["Port: " ++ port, "Could not parse port. Using default 5432"]) ∧
    (∀ c : Connection, connString c =
      "user=" ++ c.user ++ " host=" ++ c.host ++ " dbname=" ++ c.dbname ++
        " password=" ++ c.password ++ " port=" ++ c.port) := by
  by_cases hport : port = ""
  · subst hport
    refine ⟨rfl, fun hne => absurd rfl hne, fun c => rfl⟩
  · have hnone : rustParseU16 port = none := by
      rcases h with h | h
      · exact absurd h hport
      · exact h
    refine ⟨?_, fun _ => ?_, fun c => rfl⟩
    · simp [newConnTarget, portOrDefault, hport, hnone]
      rfl
    · simp [portOrDefault, hport, hnone]

/-- C8 amended witness: the unparseable port abc is defaulted to 5432 with
the warning, while connect keeps the raw string. -/
theorem new_defaults_port_amended_witness :
    newConnTarget "h" "d" "u" "abc" "p" =
      "host=" ++ "h" ++ " dbname=" ++ "d" ++ " port=" ++ "5432" ++
        " user=" ++ "u" ++ " password=" ++ "p" ∧
    ("abc" ≠ "" → (portOrDefault "abc").2 =
      ["Port: " ++ "abc", "Could not parse port. Using default 5432"]) ∧
    (∀ c : Connection, connString c =
      "user=" ++ c.user ++ " host=" ++ c.host ++ " dbname=" ++ c.dbname ++
        " password=" ++ c.password ++ " port=" ++ c.port) :=
  new_defaults_port_amended "h" "d" "u" "abc" "p" (Or.inr (by decide))

end PsqlStats
